import Mathlib

/-!
Shallow embedding of `src/updater/library/src/cache.rs` (shorebird updater
cache / state management) and proofs about its specification.

Modelling conventions:
- Rust `Vec<T>` becomes `List T`; `usize` becomes `Nat` (no arithmetic in the
  source can overflow: the only operations are comparisons and `index + 1` on
  a slot index, and Rust would panic on overflow rather than wrap).
- A Rust panic (a failed `assert!` or `.unwrap()` on `None`) is modelled by
  returning `none` from an `Option`-valued embedding of the function.
- The `warn!` logging side effect is modelled by an extra `Bool` result that
  records whether the warning was emitted.
- File-system effects are modelled by a map from path strings to file
  contents; `serde_json` text encoding is external library code, so the file
  content of the state file is modelled at the structured-JSON level, with
  the `Serialize`/`Deserialize` derives embedded field by field.
- The network collaborator `download_file_to_path` is external to this file
  (`crate::network`); it is modelled as an oracle `dl : String → String →
  Bool` saying whether fetching a given url to a given path succeeds, and on
  success the payload is materialised at the destination path.
-/

/-- JSON values as produced by the `Serialize` derive for `UpdaterState`
(only the constructors those fields can produce are needed). -/
inductive Json where
  | str (s : String)
  | num (n : Nat)
  | arr (elems : List Json)
  | obj (fields : List (String × Json))

/-- `pub struct PatchInfo { pub path: String, pub version: String }` -/
structure PatchInfo where
  path : String
  version : String
deriving DecidableEq, Repr

/-- `struct Slot { path: String, patch_version: String }` -/
structure Slot where
  path : String
  patch_version : String
deriving DecidableEq, Repr

/-- `#[derive(Default)]` for `Slot`: both strings empty. -/
instance : Inhabited Slot := ⟨⟨"", ""⟩⟩

/-- `pub struct UpdaterState` with its four fields. -/
structure UpdaterState where
  failed_patches : List String
  successful_patches : List String
  current_slot_index : Nat
  slots : List Slot
deriving DecidableEq, Repr

/-- `impl Default for UpdaterState`: index 0, everything empty. -/
instance : Inhabited UpdaterState := ⟨⟨[], [], 0, []⟩⟩

namespace UpdaterState

/-- `is_known_good_patch`: `self.successful_patches.iter().any(|v| v == &patch.version)` -/
def is_known_good_patch (st : UpdaterState) (patch : PatchInfo) : Bool :=
  st.successful_patches.any (fun v => v == patch.version)

/-- `is_known_bad_patch`: `self.failed_patches.iter().any(|v| v == &patch.version)` -/
def is_known_bad_patch (st : UpdaterState) (patch : PatchInfo) : Bool :=
  st.failed_patches.any (fun v => v == patch.version)

/-- `mark_patch_as_bad`; the `Bool` records whether `warn!` fired. -/
def mark_patch_as_bad (st : UpdaterState) (patch : PatchInfo) :
    UpdaterState × Bool :=
  if st.is_known_good_patch patch then
    (st, true)
  else if st.is_known_bad_patch patch then
    (st, false)
  else
    ({ st with failed_patches := st.failed_patches ++ [patch.version] }, false)

/-- `mark_patch_as_good`; the `Bool` records whether `warn!` fired. -/
def mark_patch_as_good (st : UpdaterState) (patch : PatchInfo) :
    UpdaterState × Bool :=
  if st.is_known_bad_patch patch then
    (st, true)
  else if st.is_known_good_patch patch then
    (st, false)
  else
    ({ st with successful_patches := st.successful_patches ++ [patch.version] }, false)

/-- `current_patch`: guarded projection of the slot at `current_slot_index`. -/
def current_patch (st : UpdaterState) : Option PatchInfo :=
  if st.slots.isEmpty || st.slots.length ≤ st.current_slot_index then
    none
  else
    match st.slots[st.current_slot_index]? with
    | none => none
    | some slot => some ⟨slot.path, slot.patch_version⟩

/-- `unused_slot`: fixed two-slot rotation. -/
def unused_slot (st : UpdaterState) : Nat :=
  if st.slots.isEmpty then 0
  else if st.current_slot_index = 0 then 1
  else 0

/-- `Vec::resize(new_len, default())` in the growing case used by `set_slot`. -/
def resizeSlots (slots : List Slot) (newLen : Nat) : List Slot :=
  slots ++ List.replicate (newLen - slots.length) (default : Slot)

/-- `set_slot`; `none` models the `assert!(self.slots.len() == index)` panic. -/
def set_slot (st : UpdaterState) (index : Nat) (slot : Slot) :
    Option UpdaterState :=
  if st.slots.length < index + 1 then
    if st.slots.length = index then
      some { st with slots := (resizeSlots st.slots (index + 1)).set index slot }
    else
      none
  else
    some { st with slots := st.slots.set index slot }

/-- `set_current_slot`: plain field assignment, no persistence. -/
def set_current_slot (st : UpdaterState) (index : Nat) : UpdaterState :=
  { st with current_slot_index := index }

end UpdaterState

/-! ### Persistence: the `Serialize`/`Deserialize` derives and the state file -/

/-- `Serialize` derive for `Slot`: object with the two fields in
declaration order. -/
def slotToJson (s : Slot) : Json :=
  .obj [("path", .str s.path), ("patch_version", .str s.patch_version)]

/-- `Serialize` derive for `UpdaterState`: object with the four fields in
declaration order. -/
def stateToJson (st : UpdaterState) : Json :=
  .obj [("failed_patches", .arr (st.failed_patches.map .str)),
        ("successful_patches", .arr (st.successful_patches.map .str)),
        ("current_slot_index", .num st.current_slot_index),
        ("slots", .arr (st.slots.map slotToJson))]

/-- Field lookup in a JSON object, as the `Deserialize` derive performs it. -/
def jsonField (fields : List (String × Json)) (key : String) : Option Json :=
  match fields with
  | [] => none
  | (k, v) :: rest => if k = key then some v else jsonField rest key

/-- Decode a JSON string. -/
def jsonAsStr : Json → Option String
  | .str s => some s
  | _ => none

/-- Decode a JSON number into a `usize`. -/
def jsonAsNat : Json → Option Nat
  | .num n => some n
  | _ => none

/-- Decode every element of a JSON array, failing if any element fails. -/
def decodeList (f : Json → Option α) : List Json → Option (List α)
  | [] => some []
  | j :: rest =>
    match f j, decodeList f rest with
    | some a, some as_ => some (a :: as_)
    | _, _ => none

/-- Decode a `Vec<String>`. -/
def jsonAsStrList : Json → Option (List String)
  | .arr xs => decodeList jsonAsStr xs
  | _ => none

/-- `Deserialize` derive for `Slot`. -/
def slotFromJson : Json → Option Slot
  | .obj fields =>
    match jsonField fields "path", jsonField fields "patch_version" with
    | some jp, some jv =>
      match jsonAsStr jp, jsonAsStr jv with
      | some p, some v => some ⟨p, v⟩
      | _, _ => none
    | _, _ => none
  | _ => none

/-- Decode a `Vec<Slot>`. -/
def jsonAsSlotList : Json → Option (List Slot)
  | .arr xs => decodeList slotFromJson xs
  | _ => none

/-- `Deserialize` derive for `UpdaterState`: all four fields required, each
decoded at its declared type. -/
def stateFromJson : Json → Option UpdaterState
  | .obj fields =>
    match jsonField fields "failed_patches", jsonField fields "successful_patches",
          jsonField fields "current_slot_index", jsonField fields "slots" with
    | some jf, some js, some jc, some jl =>
      match jsonAsStrList jf, jsonAsStrList js, jsonAsNat jc, jsonAsSlotList jl with
      | some f, some s, some c, some l => some ⟨f, s, c, l⟩
      | _, _, _, _ => none
    | _, _, _, _ => none
  | _ => none

/-- A file in the cache directory: either the serialized state (a JSON
document) or a downloaded payload, remembered by the url it came from. -/
inductive FileContent where
  | jsonFile (j : Json)
  | payloadFile (url : String)

/-- The file system visible to the updater: a partial map from paths to
file contents. -/
def FS : Type := String → Option FileContent

/-- Write one file. -/
def fsWrite (fs : FS) (path : String) (content : FileContent) : FS :=
  fun p => if p = path then some content else fs p

/-- The error kinds the cache operations surface (via `anyhow::Result`). -/
inductive UpdateError where
  | notFound
  | deserializeError
  | downloadError
deriving DecidableEq, Repr

/-- `Path::new(cache_dir).join("state.json")`. -/
def stateFilePath (cache_dir : String) : String :=
  cache_dir ++ "/state.json"

namespace UpdaterState

/-- `UpdaterState::load`: open `cache_dir/state.json` (error if absent) and
deserialize it (error if malformed). -/
def load (cache_dir : String) (fs : FS) : Except UpdateError UpdaterState :=
  match fs (stateFilePath cache_dir) with
  | none => .error .notFound
  | some (.payloadFile _) => .error .deserializeError
  | some (.jsonFile j) =>
    match stateFromJson j with
    | none => .error .deserializeError
    | some st => .ok st

/-- `UpdaterState::save`: create the directory and write the serialized
state to `cache_dir/state.json` (directory creation and the buffered write
cannot fail in this file-system model). -/
def save (st : UpdaterState) (cache_dir : String) (fs : FS) : FS :=
  fsWrite fs (stateFilePath cache_dir) (.jsonFile (stateToJson st))

end UpdaterState

/-! ### The slot installer and its network collaborator -/

/-- `Patch { download_url, version }` inside a `PatchCheckResponse`
(from `crate::network`). -/
structure Patch where
  download_url : String
  version : String
deriving DecidableEq, Repr

/-- `PatchCheckResponse` with its optional `patch` field. -/
structure PatchCheckResponse where
  patch : Option Patch
deriving DecidableEq, Repr

/-- `crate::network::download_file_to_path`, modelled by an oracle `dl`
telling which (url, destination) fetches succeed; on success the payload is
materialised at the destination path. -/
def download_file_to_path (dl : String → String → Bool) (url : String)
    (path : String) (fs : FS) : Except UpdateError FS :=
  if dl url path then .ok (fsWrite fs path (.payloadFile url)) else .error .downloadError

/-- `Path::new(cache_dir).join(format!("slot_{}", slot_index)).join("dlc.vmcode")`. -/
def slotFilePath (cache_dir : String) (slot_index : Nat) : String :=
  cache_dir ++ "/slot_" ++ Nat.repr slot_index ++ "/dlc.vmcode"

/-- `download_into_slot`. The outer `Option` models panics: `none` is the
`.unwrap()` on a response without a `patch` field, or the `set_slot`
assertion. The `Except` layer is the `anyhow::Result`. -/
def download_into_slot (dl : String → String → Bool) (cache_dir : String)
    (resp : PatchCheckResponse) (st : UpdaterState) (fs : FS)
    (slot_index : Nat) : Option (Except UpdateError (UpdaterState × FS)) :=
  let path := slotFilePath cache_dir slot_index
  match resp.patch with
  | none => none
  | some patch =>
    match download_file_to_path dl patch.download_url path fs with
    | .error e => some (.error e)
    | .ok fs1 =>
      match st.set_slot slot_index ⟨path, patch.version⟩ with
      | none => none
      | some st1 => some (.ok (st1, st1.save cache_dir fs1))

/-- `download_into_unused_slot`: pick the unused slot, download into it,
return the committed index. -/
def download_into_unused_slot (dl : String → String → Bool) (cache_dir : String)
    (resp : PatchCheckResponse) (st : UpdaterState) (fs : FS) :
    Option (Except UpdateError (Nat × UpdaterState × FS)) :=
  let slot_index := st.unused_slot
  match download_into_slot dl cache_dir resp st fs slot_index with
  | none => none
  | some (.error e) => some (.error e)
  | some (.ok (st1, fs1)) => some (.ok (slot_index, st1, fs1))

/-- Observable view of an install outcome: the committed slot index and the
current patch of the resulting state (`none` when the call panicked or
errored). -/
def installView :
    Option (Except UpdateError (Nat × UpdaterState × FS)) →
      Option (Nat × Option PatchInfo)
  | some (.ok (i, st1, _)) => some (i, st1.current_patch)
  | _ => none

/-! ### Call sequences over the state store -/

/-- A boot-outcome report: one `mark_patch_as_good` or `mark_patch_as_bad`
call. -/
inductive MarkOp where
  | good (p : PatchInfo)
  | bad (p : PatchInfo)

/-- Apply one mark call (discarding the warning flag). -/
def applyMark (st : UpdaterState) : MarkOp → UpdaterState
  | .good p => (st.mark_patch_as_good p).1
  | .bad p => (st.mark_patch_as_bad p).1

/-- Apply a sequence of mark calls, first element first. -/
def runMarks (st : UpdaterState) : List MarkOp → UpdaterState
  | [] => st
  | op :: rest => runMarks (applyMark st op) rest

/-- One mutating state-store operation. -/
inductive StoreOp where
  | markGood (p : PatchInfo)
  | markBad (p : PatchInfo)
  | setSlotOp (index : Nat) (slot : Slot)
  | setCurrentSlot (index : Nat)

/-- Apply one store operation; `none` propagates the `set_slot` panic. -/
def applyStoreOp (st : UpdaterState) : StoreOp → Option UpdaterState
  | .markGood p => some (st.mark_patch_as_good p).1
  | .markBad p => some (st.mark_patch_as_bad p).1
  | .setSlotOp i s => st.set_slot i s
  | .setCurrentSlot i => some (st.set_current_slot i)

/-- Run a sequence of store operations; a panic aborts the run. -/
def runStoreOps (st : UpdaterState) : List StoreOp → Option UpdaterState
  | [] => some st
  | op :: rest =>
    match applyStoreOp st op with
    | none => none
    | some st1 => runStoreOps st1 rest

/-- Disjointness of the two history sets, as the spec states it. -/
def PatchSetsDisjoint (st : UpdaterState) : Prop :=
  ∀ v ∈ st.successful_patches, v ∉ st.failed_patches

instance (st : UpdaterState) : Decidable (PatchSetsDisjoint st) := by
  unfold PatchSetsDisjoint; infer_instance

/-! ### Helper lemmas -/

namespace UpdaterState

theorem is_known_good_patch_iff (st : UpdaterState) (p : PatchInfo) :
    st.is_known_good_patch p = true ↔ p.version ∈ st.successful_patches := by
  unfold is_known_good_patch
  rw [List.any_eq_true]
  constructor
  · rintro ⟨x, hx, hbeq⟩
    rw [beq_iff_eq] at hbeq
    rwa [hbeq] at hx
  · intro hv
    exact ⟨p.version, hv, beq_self_eq_true _⟩

theorem is_known_bad_patch_iff (st : UpdaterState) (p : PatchInfo) :
    st.is_known_bad_patch p = true ↔ p.version ∈ st.failed_patches := by
  unfold is_known_bad_patch
  rw [List.any_eq_true]
  constructor
  · rintro ⟨x, hx, hbeq⟩
    rw [beq_iff_eq] at hbeq
    rwa [hbeq] at hx
  · intro hv
    exact ⟨p.version, hv, beq_self_eq_true _⟩

/-- Field-level description of one `mark_patch_as_bad` call. -/
theorem mark_patch_as_bad_spec (st : UpdaterState) (p : PatchInfo) :
    (st.mark_patch_as_bad p).1.successful_patches = st.successful_patches ∧
    (st.mark_patch_as_bad p).1.slots = st.slots ∧
    (st.mark_patch_as_bad p).1.current_slot_index = st.current_slot_index ∧
    (st.mark_patch_as_bad p).1.failed_patches =
      (if st.is_known_good_patch p ∨ st.is_known_bad_patch p then
        st.failed_patches else st.failed_patches ++ [p.version]) ∧
    (st.mark_patch_as_bad p).2 = st.is_known_good_patch p := by
  unfold mark_patch_as_bad
  by_cases hg : st.is_known_good_patch p <;>
    by_cases hb : st.is_known_bad_patch p <;> simp [hg, hb]

/-- Field-level description of one `mark_patch_as_good` call. -/
theorem mark_patch_as_good_spec (st : UpdaterState) (p : PatchInfo) :
    (st.mark_patch_as_good p).1.failed_patches = st.failed_patches ∧
    (st.mark_patch_as_good p).1.slots = st.slots ∧
    (st.mark_patch_as_good p).1.current_slot_index = st.current_slot_index ∧
    (st.mark_patch_as_good p).1.successful_patches =
      (if st.is_known_bad_patch p ∨ st.is_known_good_patch p then
        st.successful_patches else st.successful_patches ++ [p.version]) ∧
    (st.mark_patch_as_good p).2 = st.is_known_bad_patch p := by
  unfold mark_patch_as_good
  by_cases hg : st.is_known_good_patch p <;>
    by_cases hb : st.is_known_bad_patch p <;> simp [hg, hb]

/-- `set_slot` succeeds exactly on indices up to the current length. -/
theorem set_slot_isSome_iff (st : UpdaterState) (index : Nat) (slot : Slot) :
    (st.set_slot index slot).isSome ↔ index ≤ st.slots.length := by
  unfold set_slot
  by_cases h1 : st.slots.length < index + 1
  · by_cases h2 : st.slots.length = index <;> simp [h1, h2] <;> omega
  · simp [h1]; omega

/-- Field-level description of a successful `set_slot` call. -/
theorem set_slot_eq_some (st : UpdaterState) (index : Nat) (slot : Slot)
    (st1 : UpdaterState) (h : st.set_slot index slot = some st1) :
    st1.slots.length = max st.slots.length (index + 1) ∧
    st1.slots[index]? = some slot ∧
    st1.failed_patches = st.failed_patches ∧
    st1.successful_patches = st.successful_patches ∧
    st1.current_slot_index = st.current_slot_index := by
  unfold set_slot at h
  by_cases h1 : st.slots.length < index + 1
  · by_cases h2 : st.slots.length = index
    · rw [if_pos h1, if_pos h2] at h
      injection h with h'
      subst h'
      refine ⟨?_, ?_, rfl, rfl, rfl⟩
      · simp [resizeSlots]
        omega
      · apply List.getElem?_set_eq_of_lt
        simp [resizeSlots]
        omega
    · rw [if_pos h1, if_neg h2] at h
      exact absurd h (by simp)
  · rw [if_neg h1] at h
    injection h with h'
    subst h'
    refine ⟨?_, ?_, rfl, rfl, rfl⟩
    · simp
      omega
    · apply List.getElem?_set_eq_of_lt
      omega

end UpdaterState

theorem decodeList_map_str (xs : List String) :
    decodeList jsonAsStr (xs.map Json.str) = some xs := by
  induction xs with
  | nil => rfl
  | cons x rest ih => simp [decodeList, jsonAsStr, ih]

theorem slotFromJson_slotToJson (s : Slot) :
    slotFromJson (slotToJson s) = some s := by
  simp [slotToJson, slotFromJson, jsonField, jsonAsStr]

theorem decodeList_map_slot (xs : List Slot) :
    decodeList slotFromJson (xs.map slotToJson) = some xs := by
  induction xs with
  | nil => rfl
  | cons x rest ih => simp [decodeList, slotFromJson_slotToJson, ih]

theorem stateFromJson_stateToJson (st : UpdaterState) :
    stateFromJson (stateToJson st) = some st := by
  simp [stateToJson, stateFromJson, jsonField, jsonAsStrList, jsonAsNat,
    jsonAsSlotList, decodeList_map_str, decodeList_map_slot]

theorem disjoint_applyMark (st : UpdaterState) (op : MarkOp)
    (hd : PatchSetsDisjoint st) : PatchSetsDisjoint (applyMark st op) := by
  cases op with
  | good p =>
    unfold applyMark UpdaterState.mark_patch_as_good
    by_cases hb : st.is_known_bad_patch p
    · simpa [hb]
    · by_cases hg : st.is_known_good_patch p
      · simpa [hb, hg]
      · simp only [hb, hg, Bool.false_eq_true, if_false]
        intro v hv
        simp only [List.mem_append, List.mem_singleton] at hv
        rcases hv with hv | hv
        · exact hd v hv
        · subst hv
          intro hmem
          rw [← UpdaterState.is_known_bad_patch_iff st p] at hmem
          exact hb hmem
  | bad p =>
    unfold applyMark UpdaterState.mark_patch_as_bad
    by_cases hg : st.is_known_good_patch p
    · simpa [hg]
    · by_cases hb : st.is_known_bad_patch p
      · simpa [hg, hb]
      · simp only [hg, hb, Bool.false_eq_true, if_false]
        intro v hv hmem
        simp only [List.mem_append, List.mem_singleton] at hmem
        rcases hmem with hmem | hmem
        · exact hd v hv hmem
        · subst hmem
          rw [← UpdaterState.is_known_good_patch_iff st p] at hv
          exact hg hv

theorem disjoint_runMarks (st : UpdaterState) (ops : List MarkOp)
    (hd : PatchSetsDisjoint st) : PatchSetsDisjoint (runMarks st ops) := by
  induction ops generalizing st with
  | nil => exact hd
  | cons op rest ih => exact ih (applyMark st op) (disjoint_applyMark st op hd)

theorem applyStoreOp_mono (st : UpdaterState) (op : StoreOp)
    (st1 : UpdaterState) (h : applyStoreOp st op = some st1) :
    (∀ v ∈ st.successful_patches, v ∈ st1.successful_patches) ∧
    (∀ v ∈ st.failed_patches, v ∈ st1.failed_patches) := by
  cases op with
  | markGood p =>
    injection h with h'
    subst h'
    obtain ⟨hf, -, -, hs, -⟩ := UpdaterState.mark_patch_as_good_spec st p
    rw [hf, hs]
    constructor
    · intro v hv
      split <;> simp [hv]
    · intro v hv
      exact hv
  | markBad p =>
    injection h with h'
    subst h'
    obtain ⟨hs, -, -, hf, -⟩ := UpdaterState.mark_patch_as_bad_spec st p
    rw [hf, hs]
    constructor
    · intro v hv
      exact hv
    · intro v hv
      split <;> simp [hv]
  | setSlotOp i s =>
    obtain ⟨-, -, hf, hs, -⟩ := UpdaterState.set_slot_eq_some st i s st1 h
    rw [hf, hs]
    exact ⟨fun v hv => hv, fun v hv => hv⟩
  | setCurrentSlot i =>
    injection h with h'
    subst h'
    exact ⟨fun v hv => hv, fun v hv => hv⟩

theorem runStoreOps_mono (st : UpdaterState) (ops : List StoreOp)
    (st1 : UpdaterState) (h : runStoreOps st ops = some st1) :
    (∀ v ∈ st.successful_patches, v ∈ st1.successful_patches) ∧
    (∀ v ∈ st.failed_patches, v ∈ st1.failed_patches) := by
  induction ops generalizing st with
  | nil =>
    unfold runStoreOps at h
    injection h with h'
    subst h'
    exact ⟨fun v hv => hv, fun v hv => hv⟩
  | cons op rest ih =>
    unfold runStoreOps at h
    cases hstep : applyStoreOp st op with
    | none => rw [hstep] at h; exact absurd h (by simp)
    | some stMid =>
      rw [hstep] at h
      obtain ⟨hs1, hf1⟩ := applyStoreOp_mono st op stMid hstep
      obtain ⟨hs2, hf2⟩ := ih stMid h
      exact ⟨fun v hv => hs2 v (hs1 v hv), fun v hv => hf2 v (hf1 v hv)⟩

theorem current_patch_of_lt (st : UpdaterState)
    (h : st.current_slot_index < st.slots.length) :
    st.current_patch =
      some ⟨(st.slots.get ⟨st.current_slot_index, h⟩).path,
            (st.slots.get ⟨st.current_slot_index, h⟩).patch_version⟩ := by
  have hne : st.slots.isEmpty = false := by
    cases hs : st.slots
    · rw [hs] at h
      simp at h
    · rfl
  simp [UpdaterState.current_patch, hne, Nat.not_le.mpr h,
    List.getElem?_eq_getElem h]

theorem current_patch_none_iff (st : UpdaterState) :
    st.current_patch = none ↔
      st.slots = [] ∨ st.slots.length ≤ st.current_slot_index := by
  by_cases h : st.current_slot_index < st.slots.length
  · rw [current_patch_of_lt st h]
    simp
    constructor
    · intro hnil
      rw [hnil] at h
      simp at h
    · omega
  · unfold UpdaterState.current_patch
    have hle : st.slots.length ≤ st.current_slot_index := by omega
    simp [hle]

theorem current_patch_of_getElem (st : UpdaterState) (s : Slot)
    (h : st.slots[st.current_slot_index]? = some s) :
    st.current_patch = some ⟨s.path, s.patch_version⟩ := by
  have hlt : st.current_slot_index < st.slots.length := by
    by_contra hge
    rw [List.getElem?_eq_none (by omega)] at h
    exact absurd h (by simp)
  have hne : st.slots.isEmpty = false := by
    cases hs : st.slots
    · rw [hs] at hlt
      simp at hlt
    · rfl
  simp [UpdaterState.current_patch, hne, Nat.not_le.mpr hlt, h]

/-! ### Claims -/

/-- C1 counterexample: starting from the disjoint state with
`successful_patches = ["1.0.0"]`, `mark_patch_as_bad` on version `1.0.0`
followed by `mark_patch_as_good` on it leaves `successful_patches`
unchanged but signals no warning at the `mark_patch_as_good` call (the
warning was signalled at the `mark_patch_as_bad` call instead), refuting
the claim that the `mark_patch_as_good` call warns. -/
theorem C1_counterexample :
    PatchSetsDisjoint (⟨[], ["1.0.0"], 0, []⟩ : UpdaterState) ∧
    ((UpdaterState.mark_patch_as_bad ⟨[], ["1.0.0"], 0, []⟩
        ⟨"p", "1.0.0"⟩).1.mark_patch_as_good ⟨"p", "1.0.0"⟩).2 = false := by
  decide

/-- C1 (amended): from any state with disjoint `successful_patches` and
`failed_patches`, the two sets stay disjoint after every sequence of
`mark_patch_as_good` / `mark_patch_as_bad` calls; for every patch `p`,
`mark_patch_as_bad p` followed by `mark_patch_as_good p` leaves
`successful_patches` unchanged, with a warning signalled at the
`mark_patch_as_good` call exactly when `p` was not already known good
(when `p` was already known good the warning comes from the
`mark_patch_as_bad` call instead); symmetrically,
`mark_patch_as_good p` followed by `mark_patch_as_bad p` leaves
`failed_patches` unchanged, and `mark_patch_as_bad` on a known-good
version leaves `failed_patches` unchanged. -/
theorem C1_mark_disjointness (st : UpdaterState) (hd : PatchSetsDisjoint st) :
    (∀ ops : List MarkOp, PatchSetsDisjoint (runMarks st ops)) ∧
    (∀ p : PatchInfo,
      ((st.mark_patch_as_bad p).1.mark_patch_as_good p).1.successful_patches
        = st.successful_patches ∧
      ((st.mark_patch_as_bad p).1.mark_patch_as_good p).2
        = !st.is_known_good_patch p ∧
      (st.mark_patch_as_bad p).2 = st.is_known_good_patch p ∧
      ((st.mark_patch_as_good p).1.mark_patch_as_bad p).1.failed_patches
        = st.failed_patches ∧
      (st.is_known_good_patch p = true →
        (st.mark_patch_as_bad p).1.failed_patches = st.failed_patches)) := by
  refine ⟨fun ops => disjoint_runMarks st ops hd, fun p => ?_⟩
  by_cases hg : st.is_known_good_patch p
  · have hb : st.is_known_bad_patch p = false := by
      cases hbv : st.is_known_bad_patch p
      · rfl
      · exact absurd ((UpdaterState.is_known_bad_patch_iff st p).mp hbv)
          (hd _ ((UpdaterState.is_known_good_patch_iff st p).mp hg))
    simp [UpdaterState.mark_patch_as_bad, UpdaterState.mark_patch_as_good,
      hg, hb]
  · by_cases hb : st.is_known_bad_patch p
    · simp [UpdaterState.mark_patch_as_bad, UpdaterState.mark_patch_as_good,
        hg, hb]
    · simp only [Bool.not_eq_true] at hg hb
      have hb1 : UpdaterState.is_known_bad_patch
          { st with failed_patches := st.failed_patches ++ [p.version] } p
            = true := by
        simp [UpdaterState.is_known_bad_patch]
      have hg1 : UpdaterState.is_known_good_patch
          { st with successful_patches :=
              st.successful_patches ++ [p.version] } p = true := by
        simp [UpdaterState.is_known_good_patch]
      simp [UpdaterState.mark_patch_as_bad, UpdaterState.mark_patch_as_good,
        hg, hb, hb1, hg1]

/-- C1 witness: a concrete instance of the amended claim at the fresh
state and version `1.0.0`. -/
theorem C1_witness :
    ((UpdaterState.mark_patch_as_bad ⟨[], [], 0, []⟩
        ⟨"p", "1.0.0"⟩).1.mark_patch_as_good ⟨"p", "1.0.0"⟩).1.successful_patches
      = [] :=
  ((C1_mark_disjointness ⟨[], [], 0, []⟩ (by decide)).2 ⟨"p", "1.0.0"⟩).1

/-- C2 counterexample: a state whose `current_slot_index` refers to an
in-bounds empty/default slot: `current_patch` returns the projection of
that default slot, not "no current patch". -/
theorem C2_counterexample :
    (⟨[], [], 0, [⟨"", ""⟩]⟩ : UpdaterState).slots[0]? = some ⟨"", ""⟩ ∧
    (⟨[], [], 0, [⟨"", ""⟩]⟩ : UpdaterState).current_patch ≠ none := by
  decide

/-- C2 (amended): `current_patch` is total and returns `none` exactly when
`slots` is empty or `current_slot_index` is out of bounds; for an in-bounds
index it returns the `{path, version}` projection of the slot at
`current_slot_index` — including when that slot is an empty/default slot,
in which case it returns the projection of the default slot rather than
`none`. -/
theorem C2_current_patch_total (st : UpdaterState) :
    (st.current_patch = none ↔
      st.slots = [] ∨ st.slots.length ≤ st.current_slot_index) ∧
    (∀ h : st.current_slot_index < st.slots.length,
      st.current_patch =
        some ⟨(st.slots.get ⟨st.current_slot_index, h⟩).path,
              (st.slots.get ⟨st.current_slot_index, h⟩).patch_version⟩) :=
  ⟨current_patch_none_iff st, fun h => current_patch_of_lt st h⟩

/-- C2 witness: a concrete in-bounds instance of the amended claim. -/
theorem C2_witness :
    (⟨[], [], 1, [⟨"a", "1"⟩, ⟨"b", "2"⟩]⟩ : UpdaterState).current_patch
      = some ⟨"b", "2"⟩ :=
  (C2_current_patch_total ⟨[], [], 1, [⟨"a", "1"⟩, ⟨"b", "2"⟩]⟩).2 (by decide)

/-- C4 counterexample: on a fresh (empty) state `unused_slot` returns 0,
which *equals* `current_slot_index` (also 0); and starting from the fresh
state, after `set_current_slot 0` it returns 0, not 1, because `slots` is
still empty. -/
theorem C4_counterexample :
    (⟨[], [], 0, []⟩ : UpdaterState).unused_slot
      = (⟨[], [], 0, []⟩ : UpdaterState).current_slot_index ∧
    ((⟨[], [], 0, []⟩ : UpdaterState).set_current_slot 0).unused_slot = 0 :=
  ⟨rfl, rfl⟩

/-- C4 (amended): `unused_slot` follows the fixed two-slot rotation (0 when
`slots` is empty, else 1 when `current_slot_index` is 0, else 0); whenever
`slots` is nonempty the result differs from `current_slot_index` (on a
fresh state, where `slots` is empty, it returns 0, which coincides with the
initial `current_slot_index`); on a fresh state it returns 0; and on any
state with nonempty `slots`, after `set_current_slot 0` it returns 1 and
after `set_current_slot 1` it returns 0. -/
theorem C4_unused_slot_rotation (st : UpdaterState) :
    st.unused_slot =
      (if st.slots.isEmpty then 0
       else if st.current_slot_index = 0 then 1 else 0) ∧
    (st.slots ≠ [] → st.unused_slot ≠ st.current_slot_index) ∧
    (⟨[], [], 0, []⟩ : UpdaterState).unused_slot = 0 ∧
    (st.slots ≠ [] →
      (st.set_current_slot 0).unused_slot = 1 ∧
      (st.set_current_slot 1).unused_slot = 0) := by
  have he : st.slots ≠ [] → st.slots.isEmpty = false := by
    intro hne
    cases hs : st.slots
    · exact absurd hs hne
    · rfl
  refine ⟨rfl, ?_, rfl, ?_⟩
  · intro hne
    unfold UpdaterState.unused_slot
    rw [he hne]
    by_cases hc : st.current_slot_index = 0 <;> simp [hc] <;> omega
  · intro hne
    constructor <;>
      simp [UpdaterState.unused_slot, UpdaterState.set_current_slot, he hne]

/-- C4 witness: concrete instances of the amended claim on a one-slot
state. -/
theorem C4_witness :
    ((⟨[], [], 5, [⟨"a", "1"⟩]⟩ : UpdaterState).set_current_slot 0).unused_slot
      = 1 :=
  ((C4_unused_slot_rotation ⟨[], [], 5, [⟨"a", "1"⟩]⟩).2.2.2 (by decide)).1

/-- C3: when the `PatchCheckResponse` carries no `patch` descriptor,
`download_into_unused_slot` panics (the `.unwrap()` on `None`, modelled by
the outer `none`) for every cache directory, state, file system and
download oracle — it does not return the recoverable `MalformedResponse`
error the claim (and the code's own TODO comment) calls for. -/
theorem C3_missing_patch_panics (dl : String → String → Bool)
    (cache_dir : String) (resp : PatchCheckResponse) (st : UpdaterState)
    (fs : FS) (h : resp.patch = none) :
    download_into_unused_slot dl cache_dir resp st fs = none := by
  simp [download_into_unused_slot, download_into_slot, h]

/-- C3 witness: the panic at a concrete input. -/
theorem C3_witness :
    download_into_unused_slot (fun _ _ => true) "c" ⟨none⟩ ⟨[], [], 0, []⟩
      (fun _ => none) = none :=
  C3_missing_patch_panics (fun _ _ => true) "c" ⟨none⟩ ⟨[], [], 0, []⟩
    (fun _ => none) rfl

/-- C5: `save` into a directory followed by `load` from that directory
succeeds and returns a state equal to the saved one in all four fields
(Lean structure equality is field-wise): the serialized backing file
round-trips losslessly. -/
theorem C5_save_load_roundtrip (st : UpdaterState) (cache_dir : String)
    (fs : FS) :
    UpdaterState.load cache_dir (st.save cache_dir fs) = .ok st := by
  simp [UpdaterState.load, UpdaterState.save, fsWrite,
    stateFromJson_stateToJson]

/-- C6: `set_slot index slot` succeeds exactly when `index ≤ len slots`;
on success the slot list grows to length `max (old length) (index + 1)`
with the entry at `index` equal to the given slot and the other fields
untouched; and `set_slot 5` on a state with 0 slots fails the internal
`assert!` contract check. -/
theorem C6_set_slot_contract (st : UpdaterState) (index : Nat) (slot : Slot) :
    ((st.set_slot index slot).isSome ↔ index ≤ st.slots.length) ∧
    (∀ st1 : UpdaterState, st.set_slot index slot = some st1 →
      st1.slots.length = max st.slots.length (index + 1) ∧
      st1.slots[index]? = some slot ∧
      st1.failed_patches = st.failed_patches ∧
      st1.successful_patches = st.successful_patches ∧
      st1.current_slot_index = st.current_slot_index) ∧
    UpdaterState.set_slot ⟨[], [], 0, []⟩ 5 ⟨"a", "1"⟩ = none :=
  ⟨UpdaterState.set_slot_isSome_iff st index slot,
   fun st1 h => UpdaterState.set_slot_eq_some st index slot st1 h, rfl⟩

/-- C6 witness: a successful concrete `set_slot` call at index 0 on an
empty slot list. -/
theorem C6_witness :
    (⟨[], [], 0, [⟨"a", "1"⟩]⟩ : UpdaterState).slots[0]? = some ⟨"a", "1"⟩ :=
  ((C6_set_slot_contract ⟨[], [], 0, []⟩ 0 ⟨"a", "1"⟩).2.1
    ⟨[], [], 0, [⟨"a", "1"⟩]⟩ rfl).2.1

/-- C7: `mark_patch_as_good` and `mark_patch_as_bad` are idempotent — a
second identical call leaves `successful_patches` (respectively
`failed_patches`) exactly as after the first call. -/
theorem C7_mark_idempotent (st : UpdaterState) (p : PatchInfo) :
    ((st.mark_patch_as_good p).1.mark_patch_as_good p).1.successful_patches
      = (st.mark_patch_as_good p).1.successful_patches ∧
    ((st.mark_patch_as_bad p).1.mark_patch_as_bad p).1.failed_patches
      = (st.mark_patch_as_bad p).1.failed_patches := by
  constructor
  · by_cases hb : st.is_known_bad_patch p
    · simp [UpdaterState.mark_patch_as_good, hb]
    · by_cases hg : st.is_known_good_patch p
      · simp [UpdaterState.mark_patch_as_good, hb, hg]
      · simp only [Bool.not_eq_true] at hg hb
        have hg1 : UpdaterState.is_known_good_patch
            { st with successful_patches :=
                st.successful_patches ++ [p.version] } p = true := by
          simp [UpdaterState.is_known_good_patch]
        have hb1 : UpdaterState.is_known_bad_patch
            { st with successful_patches :=
                st.successful_patches ++ [p.version] } p
              = st.is_known_bad_patch p := rfl
        simp [UpdaterState.mark_patch_as_good, hg, hb, hg1, hb1]
  · by_cases hg : st.is_known_good_patch p
    · simp [UpdaterState.mark_patch_as_bad, hg]
    · by_cases hb : st.is_known_bad_patch p
      · simp [UpdaterState.mark_patch_as_bad, hg, hb]
      · simp only [Bool.not_eq_true] at hg hb
        have hb1 : UpdaterState.is_known_bad_patch
            { st with failed_patches :=
                st.failed_patches ++ [p.version] } p = true := by
          simp [UpdaterState.is_known_bad_patch]
        have hg1 : UpdaterState.is_known_good_patch
            { st with failed_patches :=
                st.failed_patches ++ [p.version] } p
              = st.is_known_good_patch p := rfl
        simp [UpdaterState.mark_patch_as_bad, hg, hb, hb1, hg1]

/-- C8: membership in `successful_patches` and in `failed_patches` is
permanent across every sequence of state-store operations
(`mark_patch_as_good`, `mark_patch_as_bad`, `set_slot`,
`set_current_slot`): no operation removes a recorded version. -/
theorem C8_membership_permanent (st : UpdaterState) (ops : List StoreOp)
    (st1 : UpdaterState) (h : runStoreOps st ops = some st1) (v : String) :
    (v ∈ st.successful_patches → v ∈ st1.successful_patches) ∧
    (v ∈ st.failed_patches → v ∈ st1.failed_patches) :=
  ⟨fun hv => (runStoreOps_mono st ops st1 h).1 v hv,
   fun hv => (runStoreOps_mono st ops st1 h).2 v hv⟩

/-- C8 witness: a concrete four-operation run preserving a recorded
version. -/
theorem C8_witness :
    "g" ∈ (⟨["b", "y"], ["g", "x"], 1, [⟨"s", "x"⟩]⟩ :
      UpdaterState).successful_patches :=
  (C8_membership_permanent ⟨["b"], ["g"], 0, []⟩
    [.markGood ⟨"p", "x"⟩, .setCurrentSlot 1, .setSlotOp 0 ⟨"s", "x"⟩,
     .markBad ⟨"p", "y"⟩]
    ⟨["b", "y"], ["g", "x"], 1, [⟨"s", "x"⟩]⟩ (by decide) "g").1 (by decide)

/-- C9 counterexample: on a fresh state, a successful
`download_into_unused_slot` installs into slot 0, which is already the
fresh `current_slot_index`, so `current_patch` returns the installed
`{path, version}` immediately — not `none` until `set_current_slot 0` as
the claim states. -/
theorem C9_counterexample :
    installView (download_into_unused_slot (fun _ _ => true) "c"
        ⟨some ⟨"http://x/patch", "1.0.0"⟩⟩ ⟨[], [], 0, []⟩ (fun _ => none))
      = some (0, some ⟨"c/slot_0/dlc.vmcode", "1.0.0"⟩) := by
  decide

/-- C9 (amended): when the response carries a patch descriptor and the
download of its url to the per-slot path succeeds,
`download_into_unused_slot` returns the index reported by `unused_slot`,
commits into that slot a `Slot` whose path is
`cache_dir/slot_<index>/dlc.vmcode` and whose version is the response's
patch version, saves the state to `cache_dir/state.json`, and leaves
`current_slot_index` untouched; starting from a fresh state the install
goes into slot 0, which coincides with the fresh `current_slot_index`, so
`current_patch` returns the installed `{path, version}` immediately after
the install, and still does after `set_current_slot 0`. -/
theorem C9_install_success (dl : String → String → Bool) (cache_dir : String)
    (resp : PatchCheckResponse) (st : UpdaterState) (fs : FS)
    (patch : Patch) (st1 : UpdaterState)
    (hp : resp.patch = some patch)
    (hdl : dl patch.download_url (slotFilePath cache_dir st.unused_slot) = true)
    (hset : st.set_slot st.unused_slot
      ⟨slotFilePath cache_dir st.unused_slot, patch.version⟩ = some st1) :
    download_into_unused_slot dl cache_dir resp st fs
      = some (.ok (st.unused_slot, st1,
          st1.save cache_dir (fsWrite fs
            (slotFilePath cache_dir st.unused_slot)
            (.payloadFile patch.download_url)))) ∧
    st1.current_slot_index = st.current_slot_index ∧
    st1.slots[st.unused_slot]? =
      some ⟨slotFilePath cache_dir st.unused_slot, patch.version⟩ ∧
    (st = ⟨[], [], 0, []⟩ →
      st.unused_slot = 0 ∧
      st1.current_patch = some ⟨slotFilePath cache_dir 0, patch.version⟩ ∧
      (st1.set_current_slot 0).current_patch
        = some ⟨slotFilePath cache_dir 0, patch.version⟩) := by
  obtain ⟨hlen, hget, hf, hs, hc⟩ :=
    UpdaterState.set_slot_eq_some st st.unused_slot
      ⟨slotFilePath cache_dir st.unused_slot, patch.version⟩ st1 hset
  refine ⟨?_, hc, hget, ?_⟩
  · unfold download_into_unused_slot download_into_slot download_file_to_path
    rw [hp]
    simp [hdl, hset]
  · intro hfresh
    subst hfresh
    have hget0 : st1.slots[(0 : Nat)]? =
        some ⟨slotFilePath cache_dir 0, patch.version⟩ := hget
    refine ⟨rfl, ?_, ?_⟩
    · exact current_patch_of_getElem st1
        ⟨slotFilePath cache_dir 0, patch.version⟩ (by rw [hc]; exact hget0)
    · exact current_patch_of_getElem (st1.set_current_slot 0)
        ⟨slotFilePath cache_dir 0, patch.version⟩ hget0

/-- C9 witness: the concrete fresh-state install scenario of the amended
claim. -/
theorem C9_witness :
    UpdaterState.current_patch ⟨[], [], 0, [⟨"c/slot_0/dlc.vmcode", "1.0.0"⟩]⟩
      = some ⟨"c/slot_0/dlc.vmcode", "1.0.0"⟩ :=
  ((C9_install_success (fun _ _ => true) "c" ⟨some ⟨"u", "1.0.0"⟩⟩
      ⟨[], [], 0, []⟩ (fun _ => none) ⟨"u", "1.0.0"⟩
      ⟨[], [], 0, [⟨"c/slot_0/dlc.vmcode", "1.0.0"⟩]⟩ rfl rfl
      (by decide)).2.2.2 rfl).2.1

/-- C10: `set_current_slot` accepts any index (no bounds check) and only
reassigns `current_slot_index`: `slots`, `successful_patches` and
`failed_patches` are unchanged, and the function has no file-system
effect (it takes and produces no `FS`), matching the source, which
performs no I/O there. -/
theorem C10_set_current_slot_frame (st : UpdaterState) (index : Nat) :
    (st.set_current_slot index).current_slot_index = index ∧
    (st.set_current_slot index).slots = st.slots ∧
    (st.set_current_slot index).successful_patches = st.successful_patches ∧
    (st.set_current_slot index).failed_patches = st.failed_patches :=
  ⟨rfl, rfl, rfl, rfl⟩


